import Mathlib

/-!
A shallow embedding of the MIDI Output Router logic of the msveshnikov/midi-player
repository: the General MIDI identity table (`getInstrumentName`), the instrument
cache (`loadInstrument` and the `part_000` variant), the per-channel instrument
assignment, the active note registry, and the MIDI event dispatchers of the two
component variants (`MidiPlayerComponent.jsx`, called variant A below, and the
second component contained in `HighQualityMidiPlayer.jsx`, called variant B).
Asynchronous instrument loading is additionally modelled by explicit small-step
interleaving machines so that concurrency claims can be settled.

JavaScript objects used as string-keyed maps are embedded as association lists
with at most one binding per key (`alookup` / `aset` / `aremove`); opaque
runtime values (Soundfont instrument objects and playback nodes) are embedded
as numeric handles allocated from counters; the external `Soundfont.instrument`
loader is abstracted by a function `ok : String → Bool` saying which instrument
names load successfully, and each invocation of the loader is recorded in a
`loaderCalls` trace.
-/

/-- Lookup in an association list (JS object property read: `obj[k]`). -/
def alookup {α β : Type} [DecidableEq α] : List (α × β) → α → Option β
  | [], _ => none
  | (a, b) :: t, k => if a = k then some b else alookup t k

/-- Update in an association list (JS object property write: `obj[k] = v`);
replaces the first binding of the key or appends a fresh one. -/
def aset {α β : Type} [DecidableEq α] : List (α × β) → α → β → List (α × β)
  | [], k, v => [(k, v)]
  | (a, b) :: t, k, v => if a = k then (k, v) :: t else (a, b) :: aset t k v

/-- Removal from an association list (JS `delete obj[k]`). -/
def aremove {α β : Type} [DecidableEq α] : List (α × β) → α → List (α × β)
  | [], _ => []
  | (a, b) :: t, k => if a = k then t else (a, b) :: aremove t k

/-- Number of bindings of a key in an association list. -/
def countKey {α β : Type} [DecidableEq α] : List (α × β) → α → Nat
  | [], _ => 0
  | (a, _) :: t, k => (if a = k then 1 else 0) + countKey t k

/-- The default fallback instrument identity used throughout the source
(`"acoustic_grand_piano"`). -/
def defaultInstrument : String := "acoustic_grand_piano"

/-- The 128-entry General MIDI instrument table `gmInstruments` from
`src/src/MidiPlayerComponent.jsx` lines 44-173 (the identical list also appears
in `HighQualityMidiPlayer.jsx` lines 218-347 and `src/unnamed/part_000`
lines 49-194). -/
def gmInstruments : List String := [
  "acoustic_grand_piano", "bright_acoustic_piano", "electric_grand_piano",
  "honkytonk_piano", "electric_piano_1", "electric_piano_2", "harpsichord",
  "clavinet",
  "celesta", "glockenspiel", "music_box", "vibraphone", "marimba", "xylophone",
  "tubular_bells", "dulcimer",
  "drawbar_organ", "percussive_organ", "rock_organ", "church_organ",
  "reed_organ", "accordion", "harmonica", "tango_accordion",
  "acoustic_guitar_nylon", "acoustic_guitar_steel", "electric_guitar_jazz",
  "electric_guitar_clean", "electric_guitar_muted", "overdriven_guitar",
  "distortion_guitar", "guitar_harmonics",
  "acoustic_bass", "electric_bass_finger", "electric_bass_pick",
  "fretless_bass", "slap_bass_1", "slap_bass_2", "synth_bass_1", "synth_bass_2",
  "violin", "viola", "cello", "contrabass", "tremolo_strings",
  "pizzicato_strings", "orchestral_harp", "timpani",
  "string_ensemble_1", "string_ensemble_2", "synth_strings_1",
  "synth_strings_2", "choir_aahs", "voice_oohs", "synth_choir", "orchestra_hit",
  "trumpet", "trombone", "tuba", "muted_trumpet", "french_horn",
  "brass_section", "synth_brass_1", "synth_brass_2",
  "soprano_sax", "alto_sax", "tenor_sax", "baritone_sax", "oboe",
  "english_horn", "bassoon", "clarinet",
  "piccolo", "flute", "recorder", "pan_flute", "blown_bottle", "shakuhachi",
  "whistle", "ocarina",
  "lead_1_square", "lead_2_sawtooth", "lead_3_calliope", "lead_4_chiff",
  "lead_5_charang", "lead_6_voice", "lead_7_fifths", "lead_8_bass_lead",
  "pad_1_new_age", "pad_2_warm", "pad_3_polysynth", "pad_4_choir",
  "pad_5_bowed", "pad_6_metallic", "pad_7_halo", "pad_8_sweep",
  "fx_1_rain", "fx_2_soundtrack", "fx_3_crystal", "fx_4_atmosphere",
  "fx_5_brightness", "fx_6_goblins", "fx_7_echoes", "fx_8_sci_fi",
  "sitar", "banjo", "shamisen", "koto", "kalimba", "bagpipe", "fiddle",
  "shanai",
  "tinkle_bell", "agogo", "steel_drums", "woodblock", "taiko_drum",
  "melodic_tom", "synth_drum", "reverse_cymbal",
  "guitar_fret_noise", "breath_noise", "seashore", "bird_tweet",
  "telephone_ring", "helicopter", "applause", "gunshot"]

/-- JavaScript array indexing `xs[i]`: yields `undefined` (here `none`) for a
negative or out-of-bounds index. -/
def jsIndex (xs : List String) (i : Int) : Option String :=
  if 0 ≤ i then xs.get? i.toNat else none

/-- `getInstrumentName` from `src/src/MidiPlayerComponent.jsx` lines 42-176:
`return gmInstruments[programNumber] || "acoustic_grand_piano";`.  The input is
an `Option Int` so that a JS `undefined` argument (`none`) is representable;
both `undefined` and an out-of-range index make `gmInstruments[programNumber]`
`undefined`, which the `||` turns into the default identity. -/
def getInstrumentName (programNumber : Option Int) : String :=
  match programNumber with
  | some p => (jsIndex gmInstruments p).getD defaultInstrument
  | none => defaultInstrument

/-- The shared instrument cache (`instrumentsRef.current` in the source): the
name-to-handle table of loaded Soundfont instruments, a counter allocating
fresh opaque instrument handles, and the trace of names passed to the external
`Soundfont.instrument` loader. -/
structure Cache where
  table : List (String × Nat)
  nextHandle : Nat
  loaderCalls : List String
deriving Repr, DecidableEq

/-- The empty cache at session start. -/
def emptyCache : Cache := { table := [], nextHandle := 0, loaderCalls := [] }

/-- `loadInstrument` from `src/src/MidiPlayerComponent.jsx` lines 196-232 (the
`loadInstrument` of `HighQualityMidiPlayer.jsx` lines 364-382 has the same
cache/fallback semantics).  Sequential (run-to-completion) semantics: check the
cache; on a miss invoke the loader (`ok name` tells whether
`Soundfont.instrument` succeeds); on success cache a fresh handle; on failure
ensure the fallback piano is cached (loading it if needed), memoize the failed
name as an alias to the piano handle and return that handle; if the piano load
itself fails the error propagates (`.error`, the thrown
"Failed to load both requested instrument and fallback piano.").  The updated
cache is returned in both outcomes. -/
def loadInstrument (ok : String → Bool) (c : Cache) (name : String) :
    Cache × Except String Nat :=
  match alookup c.table name with
  | some h => (c, .ok h)
  | none =>
    let c1 : Cache := { c with loaderCalls := c.loaderCalls ++ [name] }
    if ok name then
      ({ c1 with table := aset c1.table name c1.nextHandle,
                 nextHandle := c1.nextHandle + 1 }, .ok c1.nextHandle)
    else
      match alookup c1.table defaultInstrument with
      | some ph => ({ c1 with table := aset c1.table name ph }, .ok ph)
      | none =>
        let c2 : Cache :=
          { c1 with loaderCalls := c1.loaderCalls ++ [defaultInstrument] }
        if ok defaultInstrument then
          let ph := c2.nextHandle
          ({ c2 with
               table := aset (aset c2.table defaultInstrument ph) name ph,
               nextHandle := ph + 1 }, .ok ph)
        else
          (c2, .error "Failed to load both requested instrument and fallback piano.")

/-- `loadInstrument` from `src/unnamed/part_000` lines 200-224.  Cache check;
on a miss invoke the loader; on failure for a non-piano name the source runs
`instrumentsRef.current[instrument] = instrumentsRef.current["acoustic_grand_piano"]
|| (await Soundfont.instrument(ac, "acoustic_grand_piano"))` — it *reads* the
default key but assigns only the failed name's key, so when the piano was not
yet cached the freshly loaded piano is stored solely under the failed name and
the default key stays unset; a failure for the piano itself is re-thrown. -/
def loadInstrumentP000 (ok : String → Bool) (c : Cache) (name : String) :
    Cache × Except String Nat :=
  match alookup c.table name with
  | some h => (c, .ok h)
  | none =>
    let c1 : Cache := { c with loaderCalls := c.loaderCalls ++ [name] }
    if ok name then
      ({ c1 with table := aset c1.table name c1.nextHandle,
                 nextHandle := c1.nextHandle + 1 }, .ok c1.nextHandle)
    else if name = defaultInstrument then
      (c1, .error "critical: piano failed to load")
    else
      match alookup c1.table defaultInstrument with
      | some ph => ({ c1 with table := aset c1.table name ph }, .ok ph)
      | none =>
        let c2 : Cache :=
          { c1 with loaderCalls := c1.loaderCalls ++ [defaultInstrument] }
        if ok defaultInstrument then
          ({ c2 with table := aset c2.table name c2.nextHandle,
                     nextHandle := c2.nextHandle + 1 }, .ok c2.nextHandle)
        else
          (c2, .error "critical: piano failed to load")

/-- One `instrument.play(noteName, t, \x7b gain \x7d)` call issued to the sample
engine: the instrument handle played, the note name, and the gain
`velocity / 127`. -/
structure TriggerCall where
  instrument : Nat
  note : String
  gain : ℚ
deriving Repr, DecidableEq

/-- The observable calls a dispatch emits to the sample-playback engine:
trigger calls and `stop()` calls on playback-node handles. -/
structure Outputs where
  triggers : List TriggerCall
  stops : List Nat
deriving Repr, DecidableEq

/-- No engine calls. -/
def noOutputs : Outputs := { triggers := [], stops := [] }

/-- The MIDI events dispatched on by the source components (`event.name` string
switch); `other` stands for any event name without its own `case`. -/
inductive MidiEvent where
  | noteOn (channel : Nat) (noteName : String) (velocity : Nat)
  | noteOff (channel : Nat) (noteName : String)
  | programChange (channel : Nat) (value : Int)
  | endOfFile
  | pitchBend (channel : Nat) (value : Int)
  | controllerChange (channel : Nat) (controllerNumber : Int) (value : Int)
  | other (name : String)
deriving Repr, DecidableEq

/-- Session state of variant A (`src/src/MidiPlayerComponent.jsx`): the shared
instrument cache, the channel-to-instrument-name table
(`channelInstrumentsRef.current`), the active note registry
(`activeNotesRef.current`, keyed by the `channel-noteName` pair and holding
playback-node handles), and the `isPlaying` UI flag. -/
structure RouterA where
  cache : Cache
  channels : List (Nat × String)
  activeNotes : List ((Nat × String) × Nat)
  isPlaying : Bool
deriving Repr, DecidableEq

/-- `playNote` of variant A (`MidiPlayerComponent.jsx` lines 255-280),
run-to-completion semantics of one invocation: velocity `0` (JS falsy) returns
immediately; otherwise the channel instrument name is resolved (`|| piano`),
the instrument is loaded via `loadInstrument` and played with gain
`velocity / 127`.  The `activeNotesRef` registration is commented out in this
variant, so nothing is registered; a load error is caught and logged, leaving
only the cache mutations. -/
def playNoteA (ok : String → Bool) (s : RouterA) (noteName : String)
    (channel : Nat) (velocity : Nat) : RouterA × Outputs :=
  if velocity = 0 then (s, noOutputs)
  else
    let name := (alookup s.channels channel).getD (getInstrumentName (some 0))
    match loadInstrument ok s.cache name with
    | (c, .ok h) =>
        ({ s with cache := c },
         { triggers := [{ instrument := h, note := noteName,
                          gain := (velocity : ℚ) / 127 }], stops := [] })
    | (c, .error _) => ({ s with cache := c }, noOutputs)

/-- `stopNote` of variant A (`MidiPlayerComponent.jsx` lines 283-291): if the
registry holds a node for the `channel-noteName` key, call `stop()` on it and
delete the entry; otherwise do nothing. -/
def stopNoteA (s : RouterA) (noteName : String) (channel : Nat) :
    RouterA × Outputs :=
  match alookup s.activeNotes (channel, noteName) with
  | some node =>
      ({ s with activeNotes := aremove s.activeNotes (channel, noteName) },
       { triggers := [], stops := [node] })
  | none => (s, noOutputs)

/-- `programChange` of variant A (`MidiPlayerComponent.jsx` lines 294-307):
resolve `getInstrumentName(program)`, store it as the channel's assignment and
pre-load it (load errors are caught and logged). -/
def programChangeA (ok : String → Bool) (s : RouterA) (channel : Nat)
    (program : Int) : RouterA × Outputs :=
  let name := getInstrumentName (some program)
  let s1 := { s with channels := aset s.channels channel name }
  ({ s1 with cache := (loadInstrument ok s1.cache name).1 }, noOutputs)

/-- `midiEventHandler` of variant A (`MidiPlayerComponent.jsx` lines 317-365),
with the soundfont output initialized.  "Note on" with positive velocity calls
`playNote`; zero velocity only logs; the "Note off" case body is commented out;
"Program Change" delegates; "End of File" clears `isPlaying`; the
"Pitch Bend" and "Controller Change" cases call
`soundfontOutputRef.current.pitchBend` / `.controlChange`, methods the object
built by `createSoundfontOutput` (lines 253-312) does not define (they are
commented out at lines 309-311), so these two cases throw a `TypeError`
(embedded as `.error`); any other event name falls to the empty `default`. -/
def midiEventHandlerA (ok : String → Bool) (s : RouterA) (e : MidiEvent) :
    Except String (RouterA × Outputs) :=
  match e with
  | .noteOn c n v =>
      if v > 0 then .ok (playNoteA ok s n c v) else .ok (s, noOutputs)
  | .noteOff _ _ => .ok (s, noOutputs)
  | .programChange c v => .ok (programChangeA ok s c v)
  | .endOfFile => .ok ({ s with isPlaying := false }, noOutputs)
  | .pitchBend _ _ =>
      .error "TypeError: soundfontOutputRef.current.pitchBend is not a function"
  | .controllerChange _ _ _ =>
      .error "TypeError: soundfontOutputRef.current.controlChange is not a function"
  | .other _ => .ok (s, noOutputs)

/-- `handleStop` of variant A (`MidiPlayerComponent.jsx` lines 531-546): stops
the player transport and clears `isPlaying`; the loop over
`instrumentsRef.current` has an empty body (only comments) and the
`activeNotesRef.current = \x7b\x7d` reset is commented out, so no engine `stop`
call is issued and the registry is untouched.  `handleStop` of variant B
(`HighQualityMidiPlayer.jsx` lines 544-549) does the same minus the loop. -/
def handleStopA (s : RouterA) : RouterA × Outputs :=
  ({ s with isPlaying := false }, noOutputs)

/-- `createSoundfontOutput` channel table initialization of variant A
(`MidiPlayerComponent.jsx` lines 244-246): every channel `0..15` is assigned
`getInstrumentName(0)`.  Variant B (`HighQualityMidiPlayer.jsx` lines 387-389)
is identical. -/
def initChannelsA : List (Nat × String) :=
  (List.range 16).map (fun i => (i, getInstrumentName (some 0)))

/-- Session state of variant B (the second component in
`HighQualityMidiPlayer.jsx`, lines 351-549): like `RouterA` plus a counter
allocating fresh playback-node handles for the values returned by
`instrument.play`. -/
structure RouterB where
  cache : Cache
  channels : List (Nat × String)
  activeNotes : List ((Nat × String) × Nat)
  nextNode : Nat
  isPlaying : Bool
deriving Repr, DecidableEq

/-- `playNote` of variant B (`HighQualityMidiPlayer.jsx` lines 393-402),
run-to-completion semantics of one invocation: velocity `0` returns; otherwise
the channel instrument is resolved and loaded, the note is played (allocating a
fresh playback node) and the node is stored in the registry under the
`channel-noteName` key, overwriting any previous binding without stopping it.
There is no try/catch: a load error leaves the cache mutations and rejects the
(un-awaited) promise, so no trigger and no registration happen. -/
def playNoteB (ok : String → Bool) (s : RouterB) (noteName : String)
    (channel : Nat) (velocity : Nat) : RouterB × Outputs :=
  if velocity = 0 then (s, noOutputs)
  else
    let name := (alookup s.channels channel).getD (getInstrumentName (some 0))
    match loadInstrument ok s.cache name with
    | (c, .ok h) =>
        ({ s with cache := c,
                  activeNotes := aset s.activeNotes (channel, noteName) s.nextNode,
                  nextNode := s.nextNode + 1 },
         { triggers := [{ instrument := h, note := noteName,
                          gain := (velocity : ℚ) / 127 }], stops := [] })
    | (c, .error _) => ({ s with cache := c }, noOutputs)

/-- `stopNote` of variant B (`HighQualityMidiPlayer.jsx` lines 403-409):
identical to variant A's. -/
def stopNoteB (s : RouterB) (noteName : String) (channel : Nat) :
    RouterB × Outputs :=
  match alookup s.activeNotes (channel, noteName) with
  | some node =>
      ({ s with activeNotes := aremove s.activeNotes (channel, noteName) },
       { triggers := [], stops := [node] })
  | none => (s, noOutputs)

/-- `programChange` of variant B (`HighQualityMidiPlayer.jsx` lines 410-414). -/
def programChangeB (ok : String → Bool) (s : RouterB) (channel : Nat)
    (program : Int) : RouterB × Outputs :=
  let name := getInstrumentName (some program)
  let s1 := { s with channels := aset s.channels channel name }
  ({ s1 with cache := (loadInstrument ok s1.cache name).1 }, noOutputs)

/-- `midiEventHandler` of variant B (`HighQualityMidiPlayer.jsx` lines
420-443): the switch has no "Note off" case at all (a Note-Off event falls to
the empty `default`); `pitchBend` and `controlChange` are defined as no-op
functions (lines 415-416), so those events do nothing and never throw. -/
def midiEventHandlerB (ok : String → Bool) (s : RouterB) (e : MidiEvent) :
    RouterB × Outputs :=
  match e with
  | .noteOn c n v => if v > 0 then playNoteB ok s n c v else (s, noOutputs)
  | .noteOff _ _ => (s, noOutputs)
  | .programChange c v => programChangeB ok s c v
  | .endOfFile => ({ s with isPlaying := false }, noOutputs)
  | .pitchBend _ _ => (s, noOutputs)
  | .controllerChange _ _ _ => (s, noOutputs)
  | .other _ => (s, noOutputs)

/-- `handleStop` of variant B (`HighQualityMidiPlayer.jsx` lines 544-549):
`player.stop()` on the transport and `setIsPlaying(false)`; no engine stop
calls, registry untouched. -/
def handleStopB (s : RouterB) : RouterB × Outputs :=
  ({ s with isPlaying := false }, noOutputs)

/-- `createSoundfontOutput` channel table initialization of the
`src/unnamed/part_000` variant (lines 266-268):
`channelInstrumentsRef.current[i] = i === 9 ? "percussion" : "acoustic_grand_piano"`. -/
def initChannelsP000 : List (Nat × String) :=
  (List.range 16).map
    (fun i => (i, if i = 9 then "percussion" else "acoustic_grand_piano"))

/-- `programChange` of the `src/unnamed/part_000` variant (lines 295-313):
`if (channel === 9) return;` — channel 9 is skipped — otherwise the channel's
assignment becomes `getInstrumentName(program)` and the instrument is
pre-loaded. -/
def programChangeP000 (ok : String → Bool) (cache : Cache)
    (channels : List (Nat × String)) (channel : Nat) (program : Int) :
    Cache × List (Nat × String) :=
  if channel = 9 then (cache, channels)
  else
    let name := getInstrumentName (some program)
    ((loadInstrumentP000 ok cache name).1, aset channels channel name)

/-- Phase of one in-flight `loadInstrument` (acquire) call in the interleaving
model: `start` — about to run the synchronous prefix (the cache check and, on a
miss, the call into `Soundfont.instrument`); `awaiting` — suspended at the
`await` while the external loader runs; `done h` — returned handle `h`. -/
inductive AcqPhase where
  | start
  | awaiting
  | done (h : Nat)
deriving Repr, DecidableEq

/-- One concurrent `loadInstrument` caller: the requested identity and its
current phase. -/
structure AcqTask where
  name : String
  phase : AcqPhase
deriving Repr, DecidableEq

/-- Interleaving state for concurrent `loadInstrument` calls (success path of
`MidiPlayerComponent.jsx` lines 196-212 / `HighQualityMidiPlayer.jsx` lines
364-374): the shared `instrumentsRef.current` table, the fresh-handle counter,
the loader-invocation trace, and the in-flight callers. -/
structure FlightState where
  cache : List (String × Nat)
  nextHandle : Nat
  loaderCalls : List String
  tasks : List AcqTask
deriving Repr, DecidableEq

/-- One scheduler step advancing caller `i` of a `FlightState`.  A `start`
task checks the shared cache synchronously: on a hit it finishes immediately
with the cached handle; on a miss it invokes the loader (recorded in
`loaderCalls`) and suspends — the cache is only written *after* the `await`
resolves, which is what the `awaiting` step does: cache the freshly created
instrument under the task's name and finish with it.  This is the faithful
decomposition of the source `async` function at its single `await`. -/
def flightStep (s : FlightState) (i : Nat) : FlightState :=
  match s.tasks.get? i with
  | none => s
  | some t =>
    match t.phase with
    | .start =>
        match alookup s.cache t.name with
        | some h => { s with tasks := s.tasks.set i { t with phase := .done h } }
        | none =>
            { s with loaderCalls := s.loaderCalls ++ [t.name],
                     tasks := s.tasks.set i { t with phase := .awaiting } }
    | .awaiting =>
        { s with cache := aset s.cache t.name s.nextHandle,
                 nextHandle := s.nextHandle + 1,
                 tasks := s.tasks.set i { t with phase := .done s.nextHandle } }
    | .done _ => s

/-- Run a schedule (a list of task indices) on a `FlightState`. -/
def flightRun (s : FlightState) (sched : List Nat) : FlightState :=
  sched.foldl flightStep s

/-- Phase of one in-flight variant-B `playNote` call: `start` — the
synchronous prefix (velocity check, channel-instrument resolution, cache check
/ loader invocation) has not run yet; `awaitingLoad cached` — suspended at
`await loadInstrument(...)`, with `cached = some h` when the instrument was
already in the cache (the await still yields to the microtask queue) and
`none` when the loader was invoked; `finished`. -/
inductive PNPhase where
  | start
  | awaitingLoad (cached : Option Nat)
  | finished
deriving Repr, DecidableEq

/-- One in-flight variant-B `playNote(noteName, channel, velocity)` call. -/
structure PNTask where
  channel : Nat
  noteName : String
  velocity : Nat
  phase : PNPhase
deriving Repr, DecidableEq

/-- Interleaving state for variant B (`HighQualityMidiPlayer.jsx` lines
393-409): shared cache, active note registry, counters for instrument and
playback-node handles, the emitted engine calls, and the in-flight `playNote`
calls. -/
structure AsyncB where
  cache : List (String × Nat)
  nextHandle : Nat
  loaderCalls : List String
  activeNotes : List ((Nat × String) × Nat)
  nextNode : Nat
  triggers : List TriggerCall
  stops : List Nat
  tasks : List PNTask
deriving Repr, DecidableEq

/-- Actions of the variant-B interleaving machine: advance in-flight `playNote`
call `i`, or run one (synchronous) `stopNote(noteName, channel)` invocation. -/
inductive BAction where
  | run (i : Nat)
  | stopNote (channel : Nat) (noteName : String)
deriving Repr, DecidableEq

/-- One step of the variant-B machine.  Advancing a `start` task runs
`playNote`'s synchronous prefix: velocity `0` finishes immediately; otherwise
the channel instrument name is read and the cache checked — on a miss the
loader is invoked — and the task suspends at the `await`.  Advancing an
`awaitingLoad` task runs the resumption after the `await` (lines 398-401):
obtain the instrument handle (caching a fresh one when it came from the
loader), play the note (a fresh playback node, recorded as a trigger call) and
register the node in `activeNotes`, overwriting any previous binding of the
`channel-noteName` key.  A `stopNote` action runs lines 403-409 atomically:
stop and remove the registered node if present, else do nothing.  The channel
table is not part of this machine: the claims settled on it hold it fixed via
the name resolved at the `start` step, matching the synchronous read at line
395. -/
def asyncBStep (chans : List (Nat × String)) (s : AsyncB) (a : BAction) :
    AsyncB :=
  match a with
  | .run i =>
    match s.tasks.get? i with
    | none => s
    | some t =>
      match t.phase with
      | .start =>
          if t.velocity = 0 then
            { s with tasks := s.tasks.set i { t with phase := .finished } }
          else
            let name :=
              (alookup chans t.channel).getD (getInstrumentName (some 0))
            match alookup s.cache name with
            | some h =>
                { s with tasks :=
                    s.tasks.set i { t with phase := .awaitingLoad (some h) } }
            | none =>
                { s with loaderCalls := s.loaderCalls ++ [name],
                         tasks :=
                    s.tasks.set i { t with phase := .awaitingLoad none } }
      | .awaitingLoad cached =>
          let name :=
            (alookup chans t.channel).getD (getInstrumentName (some 0))
          let resolved : List (String × Nat) × Nat × Nat :=
            match cached with
            | some h => (s.cache, s.nextHandle, h)
            | none => (aset s.cache name s.nextHandle, s.nextHandle + 1,
                       s.nextHandle)
          { s with cache := resolved.1,
                   nextHandle := resolved.2.1,
                   triggers := s.triggers ++
                     [{ instrument := resolved.2.2, note := t.noteName,
                        gain := (t.velocity : ℚ) / 127 }],
                   activeNotes :=
                     aset s.activeNotes (t.channel, t.noteName) s.nextNode,
                   nextNode := s.nextNode + 1,
                   tasks := s.tasks.set i { t with phase := .finished } }
      | .finished => s
  | .stopNote c n =>
    match alookup s.activeNotes (c, n) with
    | some node =>
        { s with activeNotes := aremove s.activeNotes (c, n),
                 stops := s.stops ++ [node] }
    | none => s

/-- Run a list of actions on the variant-B machine. -/
def asyncBRun (chans : List (Nat × String)) (s : AsyncB)
    (acts : List BAction) : AsyncB :=
  acts.foldl (asyncBStep chans) s

theorem alookup_aset_self {α β : Type} [DecidableEq α] (l : List (α × β))
    (k : α) (v : β) : alookup (aset l k v) k = some v := by
  induction l with
  | nil => simp [aset, alookup]
  | cons p t ih =>
      obtain ⟨a, b⟩ := p
      by_cases h : a = k
      · simp [aset, alookup, h]
      · simp [aset, alookup, h, ih]

theorem alookup_aset_ne {α β : Type} [DecidableEq α] (l : List (α × β))
    (k k' : α) (v : β) (hne : k' ≠ k) :
    alookup (aset l k v) k' = alookup l k' := by
  have hke : ¬ (k = k') := fun h2 => hne h2.symm
  induction l with
  | nil => simp [aset, alookup, hke]
  | cons p t ih =>
      obtain ⟨a, b⟩ := p
      by_cases h : a = k
      · subst h
        simp [aset, alookup, hke]
      · simp [aset, alookup, h, ih]

theorem isSome_alookup_aset {α β : Type} [DecidableEq α] (l : List (α × β))
    (k k' : α) (v : β) (h : (alookup l k).isSome = true) :
    (alookup (aset l k' v) k).isSome = true := by
  by_cases hk : k = k'
  · subst hk
    rw [alookup_aset_self]
    rfl
  · rw [alookup_aset_ne l k' k v hk]
    exact h

theorem alookup_aremove_ne {α β : Type} [DecidableEq α] (l : List (α × β))
    (k k' : α) (hne : k ≠ k') :
    alookup (aremove l k') k = alookup l k := by
  induction l with
  | nil => simp [aremove]
  | cons p t ih =>
      obtain ⟨a, b⟩ := p
      by_cases h : a = k'
      · subst h
        have hak : ¬ (a = k) := fun h2 => hne h2.symm
        simp [aremove, alookup, hak]
      · simp [aremove, alookup, h, ih]

theorem countKey_aset {α β : Type} [DecidableEq α] (l : List (α × β))
    (k : α) (v : β) :
    countKey (aset l k v) k = if countKey l k = 0 then 1 else countKey l k := by
  induction l with
  | nil => simp [aset, countKey]
  | cons p t ih =>
      obtain ⟨a, b⟩ := p
      by_cases h : a = k
      · subst h
        simp [aset, countKey]
      · simp [aset, countKey, h, ih]

theorem alookup_eq_none_of_countKey_zero {α β : Type} [DecidableEq α]
    (l : List (α × β)) (k : α) (h : countKey l k = 0) :
    alookup l k = none := by
  induction l with
  | nil => rfl
  | cons p t ih =>
      obtain ⟨a, b⟩ := p
      by_cases hk : a = k
      · simp [countKey, hk] at h
      · simp [countKey, hk] at h
        simp [alookup, hk, ih h]

theorem alookup_aremove_self_of_countKey_le_one {α β : Type} [DecidableEq α]
    (l : List (α × β)) (k : α) (h : countKey l k ≤ 1) :
    alookup (aremove l k) k = none := by
  induction l with
  | nil => rfl
  | cons p t ih =>
      obtain ⟨a, b⟩ := p
      by_cases hk : a = k
      · subst hk
        simp [countKey] at h
        simp [aremove, alookup_eq_none_of_countKey_zero t a h]
      · simp [countKey, hk] at h
        simp [aremove, alookup, hk, ih h]

/-- C8: for every integer `p` in `[0,127]`, `identityFor(p)` — the source's
`getInstrumentName` — returns the `p`-th entry of the 128-entry GM table (so
every in-range program maps to exactly one identity; the table's 16
families-of-8 order is anchored by identities the spec relies on: program 0 is
the default "acoustic_grand_piano" opening the piano family 0-7, program 40 is
"violin" opening strings 40-47, the ethnic family 104-111 opens with "sitar"
and holds "shamisen" at program 106 — the spec's aside placing shamisen at
program 104 does not match the table); for every input outside `[0,127]`, or
an undefined input, it returns the default identity; the function is pure and
total with no error path (it is a total Lean function). -/
theorem c8_identity_table (p : Int) :
    (0 ≤ p → p < 128 →
      (gmInstruments.get? p.toNat).isSome = true ∧
      getInstrumentName (some p) =
        (gmInstruments.get? p.toNat).getD defaultInstrument) ∧
    ((p < 0 ∨ 128 ≤ p) → getInstrumentName (some p) = defaultInstrument) ∧
    getInstrumentName none = defaultInstrument ∧
    gmInstruments.length = 128 ∧
    getInstrumentName (some 0) = defaultInstrument ∧
    getInstrumentName (some 40) = "violin" ∧
    getInstrumentName (some 104) = "sitar" ∧
    getInstrumentName (some 106) = "shamisen" := by
  have hlen : gmInstruments.length = 128 := rfl
  refine ⟨?_, ?_, rfl, hlen, by decide, by decide, by decide, by decide⟩
  · intro h0 h1
    have hlt : p.toNat < gmInstruments.length := by omega
    refine ⟨by rw [List.get?_eq_get hlt]; rfl, ?_⟩
    simp [getInstrumentName, jsIndex, h0]
  · intro h
    rcases h with h | h
    · have hneg : ¬ (0 ≤ p) := by omega
      simp [getInstrumentName, jsIndex, hneg, defaultInstrument]
    · have h0 : 0 ≤ p := by omega
      have hge : gmInstruments.length ≤ p.toNat := by omega
      have hnone : gmInstruments.get? p.toNat = none := List.get?_eq_none.2 hge
      show (if 0 ≤ p then gmInstruments.get? p.toNat else none).getD
        defaultInstrument = defaultInstrument
      rw [if_pos h0, hnone]
      rfl

/-- Witness for C8: the in-range part applied at program 40. -/
theorem c8_identity_table_witness :
    (gmInstruments.get? (40 : Int).toNat).isSome = true ∧
    getInstrumentName (some 40) =
      (gmInstruments.get? (40 : Int).toNat).getD defaultInstrument :=
  (c8_identity_table 40).1 (by norm_num) (by norm_num)

/-- C9: a Note-On with velocity 0 is dispatched with no observable effect and
zero trigger calls, exactly like a Note-Off for the same (channel, pitch): in
variant A the handler's velocity guard logs only and the "Note off" case body
is commented out; in variant B the velocity guard does nothing and Note-Off has
no case; both `playNote` bodies also return immediately on velocity 0. -/
theorem c9_note_on_zero_is_note_off (ok : String → Bool) (sA : RouterA)
    (sB : RouterB) (c : Nat) (n : String) :
    midiEventHandlerA ok sA (.noteOn c n 0) = .ok (sA, noOutputs) ∧
    midiEventHandlerA ok sA (.noteOff c n) = .ok (sA, noOutputs) ∧
    midiEventHandlerA ok sA (.noteOn c n 0) = midiEventHandlerA ok sA (.noteOff c n) ∧
    midiEventHandlerB ok sB (.noteOn c n 0) = (sB, noOutputs) ∧
    midiEventHandlerB ok sB (.noteOff c n) = (sB, noOutputs) ∧
    midiEventHandlerB ok sB (.noteOn c n 0) = midiEventHandlerB ok sB (.noteOff c n) ∧
    playNoteA ok sA n c 0 = (sA, noOutputs) ∧
    playNoteB ok sB n c 0 = (sB, noOutputs) :=
  ⟨rfl, rfl, rfl, rfl, rfl, rfl, rfl, rfl⟩

/-- C6 (code bug): in variant A, a "Pitch Bend" or "Controller Change" event
does *not* fall through to the silent `default` — the switch calls
`soundfontOutputRef.current.pitchBend` / `.controlChange`, methods the object
returned by `createSoundfontOutput` never defines (they are commented out at
`MidiPlayerComponent.jsx` lines 309-311), so the dispatch throws a `TypeError`
instead of being a no-op; genuinely unknown event kinds are silently ignored.
Variant B defines both hooks as no-ops, matching the claimed behavior. -/
theorem c6_reserved_events (ok : String → Bool) (sA : RouterA) (sB : RouterB)
    (c : Nat) (cn vv : Int) (nm : String) :
    midiEventHandlerA ok sA (.pitchBend c vv) =
      .error "TypeError: soundfontOutputRef.current.pitchBend is not a function" ∧
    midiEventHandlerA ok sA (.controllerChange c cn vv) =
      .error "TypeError: soundfontOutputRef.current.controlChange is not a function" ∧
    midiEventHandlerA ok sA (.other nm) = .ok (sA, noOutputs) ∧
    midiEventHandlerB ok sB (.pitchBend c vv) = (sB, noOutputs) ∧
    midiEventHandlerB ok sB (.controllerChange c cn vv) = (sB, noOutputs) ∧
    midiEventHandlerB ok sB (.other nm) = (sB, noOutputs) :=
  ⟨rfl, rfl, rfl, rfl, rfl, rfl⟩

/-- Concrete registry state used to refute C3: two notes are sounding. -/
def c3CexState : RouterA :=
  { cache := { table := [("acoustic_grand_piano", 0)], nextHandle := 1,
               loaderCalls := ["acoustic_grand_piano"] },
    channels := [(0, "acoustic_grand_piano")],
    activeNotes := [((0, "C4"), 5), ((1, "E3"), 6)],
    isPlaying := true }

/-- C3 counterexample: with two active notes, stopping playback (`handleStop`)
neither empties the Active Note Registry nor issues one engine stop call per
previously-active note. -/
theorem c3_counterexample :
    ¬ ((handleStopA c3CexState).1.activeNotes = [] ∧
       (handleStopA c3CexState).2.stops.length = 2) := by decide

/-- C3 as amended: `handleStop` (both variants) only stops the transport and
clears the playing flag; it issues zero engine stop calls and leaves the
Active Note Registry exactly as it was, so sounding notes are left to decay on
their own. -/
theorem c3_amended_handle_stop (sA : RouterA) (sB : RouterB) :
    (handleStopA sA).1.activeNotes = sA.activeNotes ∧
    (handleStopA sA).2.stops = [] ∧
    (handleStopA sA).1.isPlaying = false ∧
    (handleStopB sB).1.activeNotes = sB.activeNotes ∧
    (handleStopB sB).2.stops = [] ∧
    (handleStopB sB).1.isPlaying = false :=
  ⟨rfl, rfl, rfl, rfl, rfl, rfl⟩

/-- Concrete session state used to refute C2: note C4 on channel 0 is
registered with playback node 5. -/
def c2CexState : RouterA :=
  { cache := { table := [("acoustic_grand_piano", 0)], nextHandle := 1,
               loaderCalls := ["acoustic_grand_piano"] },
    channels := [(0, "acoustic_grand_piano")],
    activeNotes := [((0, "C4"), 5)],
    isPlaying := true }

/-- What C2 asserts a dispatched Note-Off does at the C2 state: the registered
node 5 is stopped and the (0, "C4") entry is removed, without an error. -/
def c2NoteOffClaim (r : Except String (RouterA × Outputs)) : Bool :=
  match r with
  | .ok (s, out) =>
      (alookup s.activeNotes (0, "C4") == none) && out.stops.contains 5
  | .error _ => false

/-- C2 counterexample: dispatching a Note-Off for a registered (channel,
pitch) neither stops the registered node nor removes the entry — variant A's
"Note off" case body is commented out (and variant B has no such case), so the
event is a no-op even when a matching entry exists. -/
theorem c2_counterexample :
    ¬ (c2NoteOffClaim
        (midiEventHandlerA (fun _ => true) c2CexState (.noteOff 0 "C4")) = true) := by
  decide

/-- C2 as amended: a dispatched Note-Off event is ignored by both routers
(state unchanged, no engine calls, no error) even when an entry is registered;
the registry routine `stopNote` itself, when invoked directly, does behave as
claimed — it stops the registered node and removes the entry if present, and
is a silent no-op otherwise. -/
theorem c2_amended_note_off (ok : String → Bool) (sA : RouterA) (sB : RouterB)
    (c : Nat) (n : String) :
    midiEventHandlerA ok sA (.noteOff c n) = .ok (sA, noOutputs) ∧
    midiEventHandlerB ok sB (.noteOff c n) = (sB, noOutputs) ∧
    (∀ node, alookup sA.activeNotes (c, n) = some node →
      stopNoteA sA n c =
        ({ sA with activeNotes := aremove sA.activeNotes (c, n) },
         { triggers := [], stops := [node] }) ∧
      (countKey sA.activeNotes (c, n) ≤ 1 →
        alookup (stopNoteA sA n c).1.activeNotes (c, n) = none)) ∧
    (alookup sA.activeNotes (c, n) = none → stopNoteA sA n c = (sA, noOutputs)) := by
  refine ⟨rfl, rfl, ?_, ?_⟩
  · intro node hnode
    refine ⟨by simp [stopNoteA, hnode], ?_⟩
    intro hcount
    simp [stopNoteA, hnode]
    exact alookup_aremove_self_of_countKey_le_one _ _ hcount
  · intro hnone
    simp [stopNoteA, hnone, noOutputs]

/-- Concrete state witnessing the amended C2 `stopNote` contract. -/
def c2WitState : RouterA :=
  { cache := emptyCache, channels := [], activeNotes := [((0, "C4"), 5)],
    isPlaying := true }

/-- Witness for the amended C2 at a concrete registered note. -/
theorem c2_amended_note_off_witness :
    alookup c2WitState.activeNotes (0, "C4") = some 5 ∧
    alookup (stopNoteA c2WitState "C4" 0).1.activeNotes (0, "C4") = none :=
  ⟨by decide,
   ((c2_amended_note_off (fun _ => true) c2WitState
       { cache := emptyCache, channels := [], activeNotes := [], nextNode := 0,
         isPlaying := false } 0 "C4").2.2.1 5 (by decide)).2 (by decide)⟩

/-- Concrete session state used to refute C4: node 5 is already registered for
(channel 0, note C4) and the channel's piano is cached. -/
def c4CexState : RouterB :=
  { cache := { table := [("acoustic_grand_piano", 0)], nextHandle := 1,
               loaderCalls := ["acoustic_grand_piano"] },
    channels := [(0, "acoustic_grand_piano")],
    activeNotes := [((0, "C4"), 5)],
    nextNode := 6,
    isPlaying := true }

/-- C4 counterexample: a second Note-On for an already-registered
(channel, pitch) does *not* stop the prior playback handle (node 5) before the
new one is stored — variant B's `playNote` overwrites the registry binding
without issuing any stop call, leaking the prior voice. -/
theorem c4_counterexample :
    ¬ (5 ∈ (midiEventHandlerB (fun _ => true) c4CexState
        (.noteOn 0 "C4" 100)).2.stops) := by decide

/-- C4 as amended: on a retriggered Note-On the registry still holds exactly
one entry for the (channel, pitch) afterwards — the fresh playback node
replaces the prior binding — but the prior handle is *not* stopped (no stop
call is emitted; the old voice is simply dropped from tracking). -/
theorem c4_amended_retrigger (ok : String → Bool) (s : RouterB) (c : Nat)
    (n : String) (v : Nat) (h hOld : Nat)
    (hv : 0 < v)
    (hcached : alookup s.cache.table
        ((alookup s.channels c).getD (getInstrumentName (some 0))) = some h)
    (hprev : alookup s.activeNotes (c, n) = some hOld)
    (hcount : countKey s.activeNotes (c, n) = 1) :
    (midiEventHandlerB ok s (.noteOn c n v)).2.stops = [] ∧
    alookup (midiEventHandlerB ok s (.noteOn c n v)).1.activeNotes (c, n) =
      some s.nextNode ∧
    countKey (midiEventHandlerB ok s (.noteOn c n v)).1.activeNotes (c, n) = 1 := by
  have hv0 : ¬ (v = 0) := by omega
  simp only [midiEventHandlerB, if_pos hv, playNoteB, if_neg hv0,
    loadInstrument, hcached]
  refine ⟨trivial, alookup_aset_self _ _ _, ?_⟩
  rw [countKey_aset, hcount]
  simp

/-- Witness for the amended C4 at the concrete retrigger state. -/
theorem c4_amended_retrigger_witness :
    (midiEventHandlerB (fun _ => true) c4CexState (.noteOn 0 "C4" 100)).2.stops = [] ∧
    alookup (midiEventHandlerB (fun _ => true) c4CexState
      (.noteOn 0 "C4" 100)).1.activeNotes (0, "C4") = some 6 ∧
    countKey (midiEventHandlerB (fun _ => true) c4CexState
      (.noteOn 0 "C4" 100)).1.activeNotes (0, "C4") = 1 :=
  c4_amended_retrigger (fun _ => true) c4CexState 0 "C4" 100 0 5
    (by decide) (by decide) (by decide) (by decide)

/-- C5: when the loader fails for an identity (and the fallback is available:
the default identity is already cached or loads successfully), `loadInstrument`
falls back to the default identity's instrument — reusing its cached handle if
present, loading it otherwise — memoizes the failed identity as an alias to the
default's handle, and returns that handle; a second acquire of the failed
identity is then a pure cache hit: same handle, unchanged state, no new loader
invocation.  The `part_000` variant likewise falls back, memoizes the failed
name and serves retries from the cache without re-invoking the loader; when
the default was already cached it produces the identical state and handle as
`loadInstrument`, but when the default had to be loaded fresh it stores the
piano only under the failed name (its default key stays unset). -/
theorem c5_load_failure_fallback (ok : String → Bool) (c : Cache) (name : String)
    (hmiss : alookup c.table name = none)
    (hfail : ok name = false)
    (hdef : alookup c.table defaultInstrument ≠ none ∨ ok defaultInstrument = true) :
    ∃ c' ph,
      loadInstrument ok c name = (c', .ok ph) ∧
      (∀ h0, alookup c.table defaultInstrument = some h0 → ph = h0) ∧
      alookup c'.table name = some ph ∧
      alookup c'.table defaultInstrument = some ph ∧
      loadInstrument ok c' name = (c', .ok ph) ∧
      ∃ cp php,
        loadInstrumentP000 ok c name = (cp, .ok php) ∧
        alookup cp.table name = some php ∧
        (∀ h0, alookup c.table defaultInstrument = some h0 → php = h0 ∧ cp = c') ∧
        loadInstrumentP000 ok cp name = (cp, .ok php) := by
  have hnd : name ≠ defaultInstrument := by
    intro he
    rcases hdef with hd | hd
    · rw [he] at hmiss
      exact hd hmiss
    · rw [he] at hfail
      rw [hfail] at hd
      exact Bool.false_ne_true hd
  have hdn : defaultInstrument ≠ name := fun he => hnd he.symm
  rcases hdd : alookup c.table defaultInstrument with _ | ph0
  · -- the default identity is not cached yet, so it must load successfully
    have hokd : ok defaultInstrument = true := by
      rcases hdef with hd | hd
      · exact absurd hdd hd
      · exact hd
    refine ⟨{ table := aset (aset c.table defaultInstrument c.nextHandle) name
                c.nextHandle,
              nextHandle := c.nextHandle + 1,
              loaderCalls := c.loaderCalls ++ [name] ++ [defaultInstrument] },
            c.nextHandle, ?_, ?_, ?_, ?_, ?_,
            { table := aset c.table name c.nextHandle,
              nextHandle := c.nextHandle + 1,
              loaderCalls := c.loaderCalls ++ [name] ++ [defaultInstrument] },
            c.nextHandle, ?_, ?_, ?_, ?_⟩
    · simp [loadInstrument, hmiss, hfail, hdd, hokd]
    · intro h0 hh
      exact absurd hh (by simp)
    · exact alookup_aset_self _ _ _
    · rw [alookup_aset_ne _ name defaultInstrument _ hdn]
      exact alookup_aset_self _ _ _
    · have hhit : alookup (aset (aset c.table defaultInstrument c.nextHandle)
          name c.nextHandle) name = some c.nextHandle := alookup_aset_self _ _ _
      simp [loadInstrument, hhit]
    · simp [loadInstrumentP000, hmiss, hfail, hdd, hokd, hnd]
    · exact alookup_aset_self _ _ _
    · intro h0 hh
      exact absurd hh (by simp)
    · have hhit : alookup (aset c.table name c.nextHandle) name =
          some c.nextHandle := alookup_aset_self _ _ _
      simp [loadInstrumentP000, hhit]
  · -- the default identity is already cached with handle ph0
    refine ⟨{ table := aset c.table name ph0,
              nextHandle := c.nextHandle,
              loaderCalls := c.loaderCalls ++ [name] }, ph0,
            ?_, ?_, ?_, ?_, ?_,
            { table := aset c.table name ph0,
              nextHandle := c.nextHandle,
              loaderCalls := c.loaderCalls ++ [name] }, ph0, ?_, ?_, ?_, ?_⟩
    · simp [loadInstrument, hmiss, hfail, hdd]
    · intro h0 hh
      exact Option.some.inj hh
    · exact alookup_aset_self _ _ _
    · rw [alookup_aset_ne _ name defaultInstrument _ hdn]
      exact hdd
    · have hhit : alookup (aset c.table name ph0) name = some ph0 :=
        alookup_aset_self _ _ _
      simp [loadInstrument, hhit]
    · simp [loadInstrumentP000, hmiss, hfail, hdd, hnd]
    · exact alookup_aset_self _ _ _
    · intro h0 hh
      exact ⟨Option.some.inj hh, rfl⟩
    · have hhit : alookup (aset c.table name ph0) name = some ph0 :=
        alookup_aset_self _ _ _
      simp [loadInstrumentP000, hhit]

/-- Witness for C5: the loader rejects "shamisen" on an empty cache; the
fallback piano is loaded, "shamisen" is aliased to it in both variants, and a
retry re-invokes nothing. -/
theorem c5_load_failure_fallback_witness :
    ∃ c' ph,
      loadInstrument (fun s => s != "shamisen") emptyCache "shamisen" = (c', .ok ph) ∧
      (∀ h0, alookup emptyCache.table defaultInstrument = some h0 → ph = h0) ∧
      alookup c'.table "shamisen" = some ph ∧
      alookup c'.table defaultInstrument = some ph ∧
      loadInstrument (fun s => s != "shamisen") c' "shamisen" = (c', .ok ph) ∧
      ∃ cp php,
        loadInstrumentP000 (fun s => s != "shamisen") emptyCache "shamisen" =
          (cp, .ok php) ∧
        alookup cp.table "shamisen" = some php ∧
        (∀ h0, alookup emptyCache.table defaultInstrument = some h0 →
          php = h0 ∧ cp = c') ∧
        loadInstrumentP000 (fun s => s != "shamisen") cp "shamisen" =
          (cp, .ok php) :=
  c5_load_failure_fallback (fun s => s != "shamisen") emptyCache "shamisen"
    (by decide) (by decide) (Or.inr (by decide))

/-- C7 counterexample: in the `src/unnamed/part_000` variant, session
initialization assigns channel 9 the special name "percussion" (not the
default identity), and a Program Change on channel 9 is skipped outright, so
`identityFor(programNumber)` is *not* stored for it — channel 9 is a
special-cased percussion channel there, contradicting the claimed uniform
treatment. -/
theorem c7_counterexample :
    ¬ (alookup initChannelsP000 9 = some defaultInstrument ∧
       alookup (programChangeP000 (fun _ => true) emptyCache
           initChannelsP000 9 40).2 9 = some (getInstrumentName (some 40))) := by
  decide

/-- C7 as amended: in the `MidiPlayerComponent.jsx` and
`HighQualityMidiPlayer.jsx` variants the claim holds — initialization assigns
all 16 channels (channel 9 included) the default identity, and a Program
Change on any channel, channel 9 included, stores `identityFor(programNumber)`
uniformly; but in the `part_000` variant channel 9 is initialized to a
special "percussion" name and Program Changes on channel 9 are ignored. -/
theorem c7_amended_uniform_channels (ok : String → Bool) (sA : RouterA)
    (sB : RouterB) (cache : Cache) (chans : List (Nat × String))
    (i : Nat) (ch : Nat) (p : Int) (hi : i < 16) :
    alookup initChannelsA i = some defaultInstrument ∧
    alookup (programChangeA ok sA ch p).1.channels ch =
      some (getInstrumentName (some p)) ∧
    alookup (programChangeB ok sB ch p).1.channels ch =
      some (getInstrumentName (some p)) ∧
    alookup initChannelsP000 9 = some "percussion" ∧
    programChangeP000 ok cache chans 9 p = (cache, chans) := by
  refine ⟨?_, ?_, ?_, by decide, by simp [programChangeP000]⟩
  · interval_cases i <;> decide
  · simp only [programChangeA]
    exact alookup_aset_self _ _ _
  · simp only [programChangeB]
    exact alookup_aset_self _ _ _

/-- Witness for the amended C7 at channel 9 with program 40. -/
theorem c7_amended_uniform_channels_witness :
    alookup initChannelsA 9 = some defaultInstrument ∧
    alookup (programChangeA (fun _ => true)
        { cache := emptyCache, channels := initChannelsA, activeNotes := [],
          isPlaying := false } 9 40).1.channels 9 =
      some (getInstrumentName (some 40)) :=
  ⟨(c7_amended_uniform_channels (fun _ => true)
      { cache := emptyCache, channels := initChannelsA, activeNotes := [],
        isPlaying := false }
      { cache := emptyCache, channels := initChannelsA, activeNotes := [],
        nextNode := 0, isPlaying := false }
      emptyCache initChannelsP000 9 9 40 (by decide)).1,
   (c7_amended_uniform_channels (fun _ => true)
      { cache := emptyCache, channels := initChannelsA, activeNotes := [],
        isPlaying := false }
      { cache := emptyCache, channels := initChannelsA, activeNotes := [],
        nextNode := 0, isPlaying := false }
      emptyCache initChannelsP000 9 9 40 (by decide)).2.1⟩

/-- Two concurrent acquire (loadInstrument) calls for "violin" on an empty
cache, used to refute C1. -/
def c1CexStart : FlightState :=
  { cache := [], nextHandle := 0, loaderCalls := [],
    tasks := [{ name := "violin", phase := .start },
              { name := "violin", phase := .start }] }

/-- C1 counterexample: interleaving two `loadInstrument("violin")` calls so
that the second runs its cache check before the first load resolves (schedule:
both synchronous prefixes, then both resumptions) invokes the external loader
twice for the same identity and hands the two callers distinct handles — there
is no pending-load map, so in-flight loads are not joined. -/
theorem c1_counterexample :
    (flightRun c1CexStart [0, 1, 0, 1]).tasks =
      [{ name := "violin", phase := .done 0 },
       { name := "violin", phase := .done 1 }] ∧
    (flightRun c1CexStart [0, 1, 0, 1]).loaderCalls = ["violin", "violin"] ∧
    ¬ ((flightRun c1CexStart [0, 1, 0, 1]).loaderCalls.length = 1) := by
  decide

/-- C1 as amended: acquire calls collapse into one load only once a load has
*completed*: a caller that starts while the identity is already cached
finishes immediately with the cached handle and invokes no loader (so all such
callers observe the equal handle); but a caller whose cache check runs while a
load for the same identity is merely in flight starts a duplicate load and may
receive a distinct handle. -/
theorem c1_amended_single_flight (s : FlightState) (i : Nat) (t : AcqTask)
    (h : Nat) (htask : s.tasks.get? i = some t) (hphase : t.phase = .start)
    (hcache : alookup s.cache t.name = some h) :
    flightStep s i =
      { s with tasks := s.tasks.set i { t with phase := .done h } } := by
  have htask2 : s.tasks[i]? = some t := by
    rw [← List.get?_eq_getElem?]
    exact htask
  simp [flightStep, htask2, hphase, hcache]

/-- Concrete state witnessing the amended C1: "violin" already cached. -/
def c1WitState : FlightState :=
  { cache := [("violin", 0)], nextHandle := 1, loaderCalls := ["violin"],
    tasks := [{ name := "violin", phase := .start }] }

/-- Witness for the amended C1: the late acquire returns the cached handle
without invoking the loader again. -/
theorem c1_amended_single_flight_witness :
    flightStep c1WitState 0 =
      { c1WitState with tasks := [{ name := "violin", phase := .done 0 }] } :=
  (c1_amended_single_flight c1WitState 0 { name := "violin", phase := .start }
    0 (by decide) rfl (by decide)).trans (by decide)

/-- C10: while a variant-B `playNote` is suspended at its instrument load for
(channel, pitch) with no registered entry for that key, a `stopNote` for the
same key finds nothing, stops nothing and changes no state; when the load then
resolves, the note is triggered (one new trigger call, no stop call) and its
fresh playback node is registered; and an existing registration for the key
survives every machine action except a `stopNote` for exactly that key. -/
theorem c10_pending_load_note_lifecycle (chans : List (Nat × String))
    (s : AsyncB) (i : Nat) (t : PNTask) (cached : Option Nat)
    (htask : s.tasks.get? i = some t)
    (hphase : t.phase = .awaitingLoad cached)
    (hnone : alookup s.activeNotes (t.channel, t.noteName) = none) :
    asyncBStep chans s (.stopNote t.channel t.noteName) = s ∧
    alookup (asyncBStep chans s (.run i)).activeNotes (t.channel, t.noteName) =
      some s.nextNode ∧
    (asyncBStep chans s (.run i)).triggers.length = s.triggers.length + 1 ∧
    (asyncBStep chans s (.run i)).stops = s.stops ∧
    (∀ (s2 : AsyncB) (a : BAction),
      (alookup s2.activeNotes (t.channel, t.noteName)).isSome = true →
      a ≠ .stopNote t.channel t.noteName →
      (alookup (asyncBStep chans s2 a).activeNotes
        (t.channel, t.noteName)).isSome = true) := by
  have htask2 : s.tasks[i]? = some t := by
    rw [← List.get?_eq_getElem?]
    exact htask
  refine ⟨?_, ?_, ?_, ?_, ?_⟩
  · simp [asyncBStep, hnone]
  · cases cached <;>
      simp [asyncBStep, htask2, hphase, alookup_aset_self]
  · cases cached <;> simp [asyncBStep, htask2, hphase]
  · cases cached <;> simp [asyncBStep, htask2, hphase]
  · intro s2 a hsome hne
    match a with
    | .run j =>
        rcases htj : s2.tasks[j]? with _ | t2
        · simpa [asyncBStep, htj] using hsome
        · rcases ht2 : t2.phase with _ | co | _
          · by_cases hv : t2.velocity = 0
            · simpa [asyncBStep, htj, ht2, hv] using hsome
            · rcases hc : alookup s2.cache
                  ((alookup chans t2.channel).getD (getInstrumentName (some 0)))
                  with _ | hh
              · simpa [asyncBStep, htj, ht2, hv, hc] using hsome
              · simpa [asyncBStep, htj, ht2, hv, hc] using hsome
          · cases co <;>
              · simp only [asyncBStep, List.get?_eq_getElem?, htj, ht2]
                exact isSome_alookup_aset _ _ _ _ hsome
          · simpa [asyncBStep, htj, ht2] using hsome
    | .stopNote c' n' =>
        have hk : (t.channel, t.noteName) ≠ (c', n') := by
          intro he
          apply hne
          have h1 : t.channel = c' := congrArg Prod.fst he
          have h2 : t.noteName = n' := congrArg Prod.snd he
          rw [h1, h2]
        rcases hcn : alookup s2.activeNotes (c', n') with _ | node
        · simpa [asyncBStep, hcn] using hsome
        · simp only [asyncBStep, hcn]
          rw [alookup_aremove_ne _ _ _ hk]
          exact hsome

/-- Concrete pending-load state witnessing C10: one `playNote(C4, ch 0, vel
100)` is suspended at its "violin" load and nothing is registered yet. -/
def c10WitState : AsyncB :=
  { cache := [], nextHandle := 0, loaderCalls := ["violin"],
    activeNotes := [], nextNode := 0, triggers := [], stops := [],
    tasks := [{ channel := 0, noteName := "C4", velocity := 100,
                phase := .awaitingLoad none }] }

/-- Witness for C10 at the concrete pending-load state. -/
theorem c10_pending_load_note_lifecycle_witness :
    asyncBStep [(0, "violin")] c10WitState (.stopNote 0 "C4") = c10WitState ∧
    alookup (asyncBStep [(0, "violin")] c10WitState (.run 0)).activeNotes
      (0, "C4") = some 0 ∧
    (asyncBStep [(0, "violin")] c10WitState (.run 0)).stops = [] := by
  have h := c10_pending_load_note_lifecycle [(0, "violin")] c10WitState 0
    { channel := 0, noteName := "C4", velocity := 100,
      phase := .awaitingLoad none } none rfl rfl (by decide)
  exact ⟨h.1, h.2.1, h.2.2.2.1⟩
